import Mathlib

/-
Shallow embedding of the Email-Flow-Builder flow-execution engine
(backend/app/services/flow_executor.py, backend/app/services/event_tracker.py
and the lead/event data model) together with proofs settling the frozen
claims about it.

Conventions used throughout:
  * The MongoDB document collections are modelled as Lean lists; `await x.save()`
    on a lead is modelled either by returning the updated lead or, where the
    order of externally visible effects matters, by emitting an `Op.persistLead`
    entry into an operation trace.
  * Python `None`/missing dict keys become `Option`; Python falsiness checks on
    strings (`if not s`) become emptiness checks.
  * Timestamps (`datetime.now`) are abstract `Nat` instants passed in by the
    caller; uuid fragments are likewise passed in as `fresh` strings.
  * Logging and journal writes are not modelled (they do not affect any claim).
-/

namespace EmailFlow

/-- A connection (edge) of the campaign graph, as stored in
`campaign.connections` dicts: `{id, from_node, to_node, connection_type?}`. -/
structure Conn where
  id : String := ""
  from_node : String
  to_node : String
  connection_type : Option String := none
  deriving Repr, DecidableEq

/-- A link entry of an email node's `configuration.links` list. -/
structure Link where
  text : String := ""
  url : String := ""
  deriving Repr, DecidableEq

/-- The `configuration` dict of a node; only the keys the engine reads are
modelled, each optional exactly as `config.get(...)` is. -/
structure NodeConfig where
  subject : Option String := none
  body : Option String := none
  links : List Link := []
  waitDuration : Option Int := none
  waitUnit : Option String := none
  conditionType : Option String := none
  deriving Repr, DecidableEq

/-- A campaign node dict `{id, type, configuration}`. -/
structure Node where
  id : String
  type : String
  configuration : NodeConfig := {}
  deriving Repr, DecidableEq

/-- The loaded campaign graph: `self.nodes` (as a list, preserving
`campaign.nodes` order) and `self.campaign.connections`. -/
structure Graph where
  nodes : List Node := []
  connections : List Conn := []
  deriving Repr, DecidableEq

/-- Node lookup, modelling `self.nodes.get(node_id)` (the dict is built from
the node list keyed by id; on duplicate ids the dict keeps the last entry, but
campaign node ids are unique so `find?` is faithful). -/
def findNode (g : Graph) (nid : String) : Option Node :=
  g.nodes.find? (fun n => n.id == nid)

/-- The per-node adjacency list `self.connections.get(current_node_id, [])`,
built by grouping `campaign.connections` by `from_node` preserving order. -/
def connsOf (g : Graph) (nid : String) : List Conn :=
  g.connections.filter (fun c => c.from_node == nid)

/-- Python list-of-chars helper: does `s` start with `p`? -/
def charsStartWith : List Char → List Char → Bool
  | [], _ => true
  | _ :: _, [] => false
  | p :: ps, c :: cs => p == c && charsStartWith ps cs

/-- Python substring scan over character lists. -/
def charsContain (pat : List Char) : List Char → Bool
  | [] => charsStartWith pat []
  | c :: rest => charsStartWith pat (c :: rest) || charsContain pat rest

/-- Python's substring test `pat in s` for strings. -/
def strContains (s pat : String) : Bool :=
  charsContain pat.data s.data

/-- Python's blank test `not s.strip()`: true when the string is empty or
whitespace only. -/
def isBlank (s : String) : Bool :=
  s.data.all Char.isWhitespace

/-- The loop condition of `_get_next_node_id`'s first pass:
`conn.get("connection_type", "default") == branch`. -/
def connTypeMatches (branch : String) (c : Conn) : Bool :=
  c.connection_type.getD "default" == branch

/-- The loop condition of `_get_next_node_id`'s yes/no fallback pass:
`branch in conn.get("id", "")`. -/
def connIdMatches (branch : String) (c : Conn) : Bool :=
  strContains c.id branch

/-- Model of `FlowExecutor._get_next_node_id(current_node_id, branch)`: first a
connection whose `connection_type` equals the branch; then, for `yes`/`no`,
any connection whose id contains the branch name; then, for `default`, the
first listed connection; otherwise `None`. -/
def get_next_node_id (g : Graph) (current_node_id : String) (branch : String) : Option String :=
  match (connsOf g current_node_id).find? (connTypeMatches branch) with
  | some c => some c.to_node
  | none =>
    match (if branch = "yes" ∨ branch = "no" then (connsOf g current_node_id).find? (connIdMatches branch) else none) with
    | some c => some c.to_node
    | none =>
      if branch = "default" then (connsOf g current_node_id).head?.map Conn.to_node else none

/-- The lead document as the engine reads and writes it (`LeadModel` fields
plus the idempotency-ledger fields the executor stores on the document:
`completed_tasks`, `sent_emails`, `completed_waits`, `scheduled_task_id`,
`lead_type`). `updated_at`/`created_at` bookkeeping is not modelled. -/
structure Lead where
  lead_id : String := ""
  campaign_id : String := ""
  name : String := ""
  email : String := ""
  status : String := "pending"
  current_node : Option String := none
  next_node : Option String := none
  wait_until : Option Nat := none
  scheduled_task_id : Option String := none
  completed_tasks : List String := []
  sent_emails : List String := []
  completed_waits : List String := []
  execution_path : List String := []
  email_sent_count : Nat := 0
  error_message : Option String := none
  lead_type : String := "original"
  deriving Repr, DecidableEq

/-- An externally visible effect of the engine, in program order:
a persisted lead save, an outbound `send_email_task` dispatch for a node id,
or a scheduled `resume_lead_task` (task id, eta). -/
inductive Op where
  | persistLead : Lead → Op
  | dispatchEmail : String → Op
  | scheduleResume : String → Nat → Op
  deriving Repr, DecidableEq

/-- The dict a node executor returns: `{"status": ..., "next_node"?, "message"?}`. -/
structure ExecResult where
  status : String
  next_node : Option String := none
  message : Option String := none
  deriving Repr, DecidableEq

/-- Model of `FlowExecutor._mark_node_as_executing(lead, node_id)`: append the node id
to `completed_tasks` and `execution_path` (each only if absent), point
`current_node` at it, and save. -/
def mark_node_as_executing (lead : Lead) (node_id : String) : Lead :=
  { lead with
    completed_tasks :=
      if node_id ∈ lead.completed_tasks then lead.completed_tasks
      else lead.completed_tasks ++ [node_id]
    execution_path :=
      if node_id ∈ lead.execution_path then lead.execution_path
      else lead.execution_path ++ [node_id]
    current_node := some node_id }

/-- Model of `FlowExecutor._execute_start_node`: advance to the default successor. -/
def execute_start_node (g : Graph) (node : Node) : ExecResult :=
  { status := "completed", next_node := get_next_node_id g node.id "default" }

/-- Model of `FlowExecutor._execute_end_node`: report flow completion. -/
def execute_end_node : ExecResult :=
  { status := "flow_completed", message := some "Flow completed at end node" }

/-- Model of `FlowExecutor._execute_send_email_node(lead, node)`: validate the email
configuration; skip (advancing to the default successor) when the node id is
already in `sent_emails` or the in-memory global send set holds the key;
otherwise append the node id to `sent_emails`, bump `email_sent_count`, set
`status = "paused"`, save, and only then dispatch `send_email_task`.
Returns the result dict, the final lead state, and the effect trace. -/
def execute_send_email_node (g : Graph) (lead : Lead) (node : Node)
    (globalSends : List String) : ExecResult × Lead × List Op :=
  let config := node.configuration
  if config.subject.getD "" = "" ∨ config.body.getD "" = "" then
    ({ status := "failed", message := some ("Email node " ++ node.id ++ " missing subject or body") }, lead, [])
  else
    let subject := config.subject.getD ""
    let body := config.body.getD ""
    if isBlank subject then
      ({ status := "failed", message := some ("Email node " ++ node.id ++ " has empty subject") }, lead, [])
    else if isBlank body then
      ({ status := "failed", message := some ("Email node " ++ node.id ++ " has empty body") }, lead, [])
    else if subject.length > 200 then
      ({ status := "failed", message := some ("Email node " ++ node.id ++ " subject too long (max 200 chars)") }, lead, [])
    else if body.length > 50000 then
      ({ status := "failed", message := some ("Email node " ++ node.id ++ " body too long (max 50KB)") }, lead, [])
    else if lead.email = "" then
      ({ status := "failed", message := some "Lead missing email address" }, lead, [])
    else if node.id ∈ lead.sent_emails then
      ({ status := "completed", next_node := get_next_node_id g node.id "default" }, lead, [])
    else if ("email_send_" ++ lead.lead_id ++ "_" ++ node.id) ∈ globalSends then
      ({ status := "completed", next_node := get_next_node_id g node.id "default" }, lead, [])
    else
      let lead' := { lead with
        sent_emails := lead.sent_emails ++ [node.id]
        email_sent_count := lead.email_sent_count + 1
        status := "paused" }
      ({ status := "paused", message := some "Email task dispatched" }, lead',
        [Op.persistLead lead', Op.dispatchEmail node.id])

/-- Model of `FlowExecutor._execute_wait_node(lead, node)`: guard against a concurrent
in-memory execution lock, validate duration/unit, compute the resume eta,
record the wait in `completed_waits`, store `next_node`/`wait_until`, schedule
the resume task and pause. `now` is the current instant in seconds and
`taskId` the id Celery assigns to the scheduled task. -/
def execute_wait_node (g : Graph) (lead : Lead) (node : Node)
    (locks : List String) (now : Nat) (taskId : String) : ExecResult × Lead × List Op :=
  if (lead.lead_id ++ "_" ++ node.id) ∈ locks then
    ({ status := "duplicate_prevented", message := some "Wait node already being executed" }, lead, [])
  else
    match node.configuration.waitDuration, node.configuration.waitUnit with
    | some d, some u =>
      if u = "" then
        ({ status := "failed", message := some ("Wait node " ++ node.id ++ " missing duration or unit") }, lead, [])
      else if d ≤ 0 then
        ({ status := "failed", message := some "Invalid wait duration" }, lead, [])
      else if ¬ (u = "minutes" ∨ u = "hours" ∨ u = "days") then
        ({ status := "failed", message := some ("Invalid wait unit: " ++ u) }, lead, [])
      else
        let eta := now + d.toNat * (if u = "minutes" then 60 else if u = "hours" then 3600 else 86400)
        match get_next_node_id g node.id "default" with
        | none =>
          ({ status := "failed", message := some ("Wait node " ++ node.id ++ " has no outgoing connection") }, lead, [])
        | some nxt =>
          if node.id ∈ lead.completed_waits then
            ({ status := "completed", next_node := some nxt }, lead, [])
          else
            let leadA :=
              if "SWITCHED_TO_YES" ∈ lead.execution_path ∧ node.id ∈ lead.completed_waits then
                { lead with completed_waits := lead.completed_waits.erase node.id }
              else lead
            let opsA :=
              if "SWITCHED_TO_YES" ∈ lead.execution_path ∧ node.id ∈ lead.completed_waits then
                [Op.persistLead leadA]
              else []
            let leadB :=
              if "SWITCHED_TO_YES" ∈ leadA.execution_path ∧ node.id ∈ leadA.completed_tasks then
                { leadA with completed_tasks := leadA.completed_tasks.erase node.id }
              else leadA
            let opsB :=
              if "SWITCHED_TO_YES" ∈ leadA.execution_path ∧ node.id ∈ leadA.completed_tasks then
                opsA ++ [Op.persistLead leadB]
              else opsA
            if node.id ∈ leadB.completed_waits then
              ({ status := "completed", next_node := some nxt }, leadB, opsB)
            else
              let leadC := { leadB with
                completed_waits := leadB.completed_waits ++ [node.id]
                next_node := some nxt
                wait_until := some eta
                status := "paused"
                scheduled_task_id := some taskId }
              ({ status := "paused", message := some "Waiting" }, leadC,
                opsB ++ [Op.scheduleResume taskId eta, Op.persistLead leadC])
    | _, _ =>
      ({ status := "failed", message := some ("Wait node " ++ node.id ++ " missing duration or unit") }, lead, [])

/-- A `LeadEvent` document (`models/lead_event.py`). The debugging payload
fields (`email_subject`, `condition_chain`, `email_links`, `event_context`)
carry no engine-visible behaviour and are not modelled. -/
structure LeadEvent where
  event_id : String := ""
  lead_id : String := ""
  campaign_id : String := ""
  event_type : String := "email_open"
  condition_node_id : String := ""
  target_url : Option String := none
  created_at : Nat := 0
  processed : Bool := false
  processed_at : Option Nat := none
  email_node_id : Option String := none
  deriving Repr, DecidableEq

/-- The document `EventTracker.create_waiting_event_with_context` inserts:
event id `event_{lead}_{node}_{uuid-fragment}`, unprocessed, created now. -/
def newWaitingEvent (cid lid cnid : String) (email_node_id : Option String)
    (etype : String) (turl : Option String) (fresh : String) (now : Nat) : LeadEvent :=
  { event_id := "event_" ++ lid ++ "_" ++ cnid ++ "_" ++ fresh
    lead_id := lid
    campaign_id := cid
    event_type := etype
    condition_node_id := cnid
    target_url := turl
    created_at := now
    processed := false
    processed_at := none
    email_node_id := email_node_id }

/-- Model of `EventTracker.create_waiting_event_with_context`: validate the arguments
and unconditionally insert a fresh unprocessed `LeadEvent` into the store.
The raised `ValueError`s become `Except.error`. -/
def create_waiting_event_with_context (store : List LeadEvent) (cid lid cnid : String)
    (email_node_id : Option String) (etype : String) (turl : Option String)
    (fresh : String) (now : Nat) : Except String (List LeadEvent) :=
  if isBlank lid then .error "Lead ID is required"
  else if isBlank cnid then .error "Condition node ID is required"
  else if ¬ (etype = "email_open" ∨ etype = "link_click") then
    .error "Event type must be email_open or link_click"
  else if etype = "link_click" ∧ turl.getD "" = "" then
    .error "Target URL is required for link_click events"
  else
    .ok (store ++ [newWaitingEvent cid lid cnid email_node_id etype turl fresh now])

/-- The Mongo filter used by `EventTracker.process_event`: unprocessed events
of the lead/campaign/kind, with an exact `target_url` constraint when one is
supplied. -/
def matchesEvent (cid lid etype : String) (turl : Option String) (e : LeadEvent) : Bool :=
  decide (e.lead_id = lid ∧ e.campaign_id = cid ∧ e.event_type = etype ∧ e.processed = false) &&
    (match turl with
     | none => true
     | some u => decide (e.target_url = some u))

/-- The event `process_event` selects: the index and value of the store entry
satisfying `p` with minimal `created_at` (earliest store position on ties) —
i.e. the head of the `created_at`-ascending stable sort of the matches. -/
def oldestMatchIdx (p : LeadEvent → Bool) : List LeadEvent → Option (Nat × LeadEvent)
  | [] => none
  | e :: es =>
    match oldestMatchIdx p es with
    | none => if p e then some (0, e) else none
    | some (i, e2) =>
      if p e then
        if e2.created_at < e.created_at then some (i + 1, e2) else some (0, e)
      else some (i + 1, e2)

/-- The predicate `process_event` actually queries with: when a (truthy)
target url is supplied, the exact-url filter if it matches anything, else the
url-free fallback filter; otherwise the url-free filter. -/
def usedEventFilter (store : List LeadEvent) (cid lid etype : String)
    (turl : Option String) : LeadEvent → Bool :=
  if turl.getD "" ≠ "" then
    if store.any (matchesEvent cid lid etype turl) then matchesEvent cid lid etype turl
    else matchesEvent cid lid etype none
  else matchesEvent cid lid etype none

/-- Model of `EventTracker.process_event(lead_id, event_type, target_url)`: validate,
query the unprocessed matching events sorted by `created_at` (trying the exact
url first and widening only when that finds nothing), take the oldest, flip
its `processed` flag, and return its `condition_node_id`. Returns the result
together with the updated store. The downstream resume triggers the Python
fires after the flip are the callers modelled separately. -/
def process_event (store : List LeadEvent) (cid lid etype : String)
    (turl : Option String) (now : Nat) : Option String × List LeadEvent :=
  if isBlank lid then (none, store)
  else if ¬ (etype = "email_open" ∨ etype = "link_click") then (none, store)
  else
    match oldestMatchIdx (usedEventFilter store cid lid etype turl) store with
    | none => (none, store)
    | some (i, e) =>
      if e.processed then (none, store)
      else (some e.condition_node_id, store.set i { e with processed := true, processed_at := some now })

/-- Model of `EventTracker.clear_waiting_events(lead_id, condition_node_id)`: mark every
unprocessed event of the pair as processed. -/
def clear_waiting_events (store : List LeadEvent) (cid lid cnid : String) (now : Nat) : List LeadEvent :=
  store.map (fun e =>
    if e.lead_id = lid ∧ e.campaign_id = cid ∧ e.condition_node_id = cnid ∧ e.processed = false
    then { e with processed := true, processed_at := some now } else e)

/-- Model of `EventTracker.check_existing_event(lead_id, event_type, target_url)`: is
there a processed event of this lead/campaign/kind (with the url constraint
added only for `link_click` kinds)? Note the kind string is whatever the
caller passes; `_execute_condition_node` passes the condition type
`"open"`/`"click"`, not the stored `"email_open"`/`"link_click"` values. -/
def check_existing_event (store : List LeadEvent) (cid lid etype : String)
    (turl : Option String) : Bool :=
  let useUrl := turl.getD "" ≠ "" ∧ etype = "link_click"
  store.any (fun e =>
    decide (e.lead_id = lid ∧ e.campaign_id = cid ∧ e.event_type = etype ∧ e.processed = true ∧
      (useUrl → e.target_url = turl)))

/-- The number of unresolved (unprocessed) waiting events recorded for a
(lead, condition node) pair — the quantity the spec's idempotency statement
for `recordWaiting` is about. -/
def unresolvedWaitingCount (store : List LeadEvent) (lid cnid : String) : Nat :=
  (store.filter (fun e =>
    decide (e.lead_id = lid ∧ e.condition_node_id = cnid ∧ e.processed = false))).length

/-- Model of `FlowExecutor._find_preceding_email_node(target_node_id, visited)`:
first pass over the node table looking for a `sendEmail` (or, recursively, a
`condition`) node whose default successor is the target; second pass over the
raw connection list doing the same from each incoming edge. `fuel` bounds the
recursion depth (the Python guards cycles with the `visited` set; on the
acyclic graphs the engine validates, passing `visited` down is equivalent to
Python's shared mutable set). -/
def find_preceding_email_node (g : Graph) : Nat → String → List String → Option Node
  | 0, _, _ => none
  | fuel + 1, target, visited =>
    if target ∈ visited then none
    else
      let visited' := target :: visited
      let pass1 := g.nodes.findSome? (fun n =>
        if n.type = "sendEmail" then
          if get_next_node_id g n.id "default" = some target then some n else none
        else if n.type = "condition" then
          if get_next_node_id g n.id "default" = some target then
            find_preceding_email_node g fuel n.id visited'
          else none
        else none)
      match pass1 with
      | some n => some n
      | none =>
        g.connections.findSome? (fun c =>
          if c.to_node = target then
            match findNode g c.from_node with
            | some fn =>
              if fn.type = "sendEmail" then some fn
              else if fn.type = "condition" then
                find_preceding_email_node g fuel c.from_node visited'
              else none
            | none => none
          else none)

/-- Model of `FlowExecutor._execute_condition_node(lead, node)`: find the preceding
email node; for click conditions pick the first valid link; ask
`check_existing_event` (passing the condition type string) whether the event
already happened — if so return the yes successor — otherwise record a
waiting event of the mapped kind (`open ↦ email_open`, `click ↦ link_click`)
and return the no successor, which the flow loop enters immediately.
`cid` is the campaign id, `fresh`/`now` feed the inserted event. -/
def execute_condition_node (g : Graph) (cid : String) (lead : Lead) (node : Node)
    (store : List LeadEvent) (locks : List String) (fresh : String) (now : Nat) :
    ExecResult × List LeadEvent :=
  if (lead.lead_id ++ "_" ++ node.id) ∈ locks then
    ({ status := "duplicate_prevented", message := some "Condition already being processed by resume function" }, store)
  else
    let conditionType := node.configuration.conditionType.getD "open"
    match find_preceding_email_node g (g.nodes.length + g.connections.length + 1) node.id [] with
    | none =>
      ({ status := "failed", message := some "Condition node must be connected to an email node" }, store)
    | some precedingEmail =>
      let validLinks := precedingEmail.configuration.links.filter
        (fun l => decide (l.text ≠ "" ∧ l.url ≠ ""))
      if conditionType = "click" ∧ validLinks = [] then
        ({ status := "failed", message := some "No valid links found in preceding email" }, store)
      else
        let linkUrl := if conditionType = "click" then ((validLinks.head?.map Link.url).getD "") else ""
        let existing := check_existing_event store cid lead.lead_id conditionType
          (if conditionType = "click" then some linkUrl else none)
        if existing then
          match get_next_node_id g node.id "yes" with
          | some y => ({ status := "completed", next_node := some y }, store)
          | none => ({ status := "failed", message := some "No YES branch node found for condition" }, store)
        else
          let eventType :=
            if conditionType = "open" then "email_open"
            else if conditionType = "click" then "link_click"
            else if conditionType ≠ "" then "link_click" else "email_open"
          match create_waiting_event_with_context store cid lead.lead_id node.id
              (some precedingEmail.id) eventType
              (if conditionType = "click" then some linkUrl else none) fresh now with
          | .error e =>
            ({ status := "failed", message := some ("Failed to create waiting event: " ++ e) }, store)
          | .ok store' =>
            match get_next_node_id g node.id "no" with
            | some n => ({ status := "completed", next_node := some n }, store')
            | none => ({ status := "failed", message := some "No NO branch node found for condition" }, store')

/-- The combined outcome of `_execute_single_node`: result dict, final lead
state, final event store, and the ordered trace of externally visible
effects. -/
structure StepOut where
  res : ExecResult
  lead : Lead
  events : List LeadEvent
  ops : List Op
  deriving Repr, DecidableEq

/-- Model of `FlowExecutor._execute_single_node(node_id, lead)`: look the node up, skip
(advancing via the default branch) when the node id is already in
`completed_tasks` — or, for wait nodes, `completed_waits`; undo the wait
ledger entries after a literal `SWITCHED_TO_YES` marker; mark the node as
executing (a save), then dispatch on the node type. -/
def execute_single_node (g : Graph) (cid : String) (lead : Lead) (node_id : String)
    (store : List LeadEvent) (locks globalSends : List String)
    (fresh taskId : String) (now : Nat) : StepOut :=
  match findNode g node_id with
  | none =>
    { res := { status := "failed", message := some ("Node " ++ node_id ++ " not found") }
      lead := lead, events := store, ops := [] }
  | some node =>
    if node_id ∈ lead.completed_tasks then
      { res := { status := "completed", next_node := get_next_node_id g node_id "default" }
        lead := lead, events := store, ops := [] }
    else if node.type = "wait" ∧ node_id ∈ lead.completed_waits then
      { res := { status := "completed", next_node := get_next_node_id g node_id "default" }
        lead := lead, events := store, ops := [] }
    else
      let leadA :=
        if node.type = "wait" ∧ "SWITCHED_TO_YES" ∈ lead.execution_path ∧ node_id ∈ lead.completed_waits then
          { lead with completed_waits := lead.completed_waits.erase node_id }
        else lead
      let opsA :=
        if node.type = "wait" ∧ "SWITCHED_TO_YES" ∈ lead.execution_path ∧ node_id ∈ lead.completed_waits then
          [Op.persistLead leadA]
        else []
      let leadB :=
        if node.type = "wait" ∧ "SWITCHED_TO_YES" ∈ leadA.execution_path ∧ node_id ∈ leadA.completed_tasks then
          { leadA with completed_tasks := leadA.completed_tasks.erase node_id }
        else leadA
      let opsB :=
        if node.type = "wait" ∧ "SWITCHED_TO_YES" ∈ leadA.execution_path ∧ node_id ∈ leadA.completed_tasks then
          opsA ++ [Op.persistLead leadB]
        else opsA
      let leadM := mark_node_as_executing leadB node_id
      let opsM := opsB ++ [Op.persistLead leadM]
      if node.type = "start" then
        { res := execute_start_node g node, lead := leadM, events := store, ops := opsM }
      else if node.type = "sendEmail" then
        let out := execute_send_email_node g leadM node globalSends
        { res := out.1, lead := out.2.1, events := store, ops := opsM ++ out.2.2 }
      else if node.type = "condition" then
        let out := execute_condition_node g cid leadM node store locks fresh now
        { res := out.1, lead := leadM, events := out.2, ops := opsM }
      else if node.type = "wait" then
        let out := execute_wait_node g leadM node locks now taskId
        { res := out.1, lead := out.2.1, events := store, ops := opsM ++ out.2.2 }
      else if node.type = "end" then
        { res := execute_end_node, lead := leadM, events := store, ops := opsM }
      else
        { res := { status := "failed", message := some ("Unknown node type: " ++ node.type) }
          lead := leadM, events := store, ops := opsM }

/-- Model of `FlowExecutor.resume_lead_from_condition(lead_id, condition_node_id,
condition_met)`, restricted to the lead-state transformation it persists at
the branch switch (flow_executor.py lines 1359-1565), before the engine goes
on to run the flow from the yes node: ignore the call under an in-memory
execution lock or for a terminal or invalid-condition lead; otherwise cancel
the scheduled timer, pause, and — when the condition is met — move the cursor
to the yes successor, append the `SWITCHED_TO_YES:` marker, clear the
`completed_tasks`/`completed_waits` ledgers entirely and set the lead
running. (`f"SWITCHED_TO_YES:{None}"` renders as `"SWITCHED_TO_YES:None"`
when no yes successor exists, mirroring the Python f-string.) -/
def resume_lead_from_condition_switch (g : Graph) (lead : Lead) (condition_node_id : String)
    (condition_met : Bool) (locks : List String) : Lead :=
  if (lead.lead_id ++ "_" ++ condition_node_id) ∈ locks then lead
  else if lead.status = "completed" ∨ lead.status = "failed" then lead
  else
    match findNode g condition_node_id with
    | none => lead
    | some n =>
      if n.type ≠ "condition" then lead
      else
        let lead1 := { lead with scheduled_task_id := none, status := "paused" }
        if condition_met then
          let yes := get_next_node_id g condition_node_id "yes"
          { lead1 with
            current_node := yes
            execution_path := lead1.execution_path ++ ["SWITCHED_TO_YES:" ++ yes.getD "None"]
            completed_tasks := []
            completed_waits := []
            status := "running" }
        else
          { lead1 with status := "completed" }

/-- What an engine entry point did with the lead it was handed. -/
inductive EntryOutcome where
  | returned
  | failed
  | proceed
  deriving Repr, DecidableEq

/-- The guard prologue of `FlowExecutor.execute_lead(lead)` (lines 400-443),
up to the point where it hands the lead to the flow loop: blank email fails
the lead (before the terminal-status check); terminal or paused leads are
returned untouched; a missing or unknown current node fails the lead;
a pending lead is set running. -/
def execute_lead_guard (g : Graph) (lead : Lead) : Lead × EntryOutcome :=
  if isBlank lead.email then
    ({ lead with status := "failed", error_message := some "Lead missing email address" }, .failed)
  else if lead.status = "completed" ∨ lead.status = "failed" then (lead, .returned)
  else if lead.status = "paused" then (lead, .returned)
  else if lead.current_node.getD "" = "" then
    ({ lead with status := "failed", error_message := some "Lead missing current node" }, .failed)
  else if (findNode g (lead.current_node.getD "")).isNone then
    ({ lead with
        status := "failed"
        error_message := some ("Lead current node " ++ lead.current_node.getD "" ++ " not found in campaign") },
      .failed)
  else if lead.status = "pending" then ({ lead with status := "running" }, .proceed)
  else (lead, .proceed)

/-- The guard prologue of `FlowExecutor.resume_lead(lead_id)` (lines
1206-1228) on the found lead: terminal leads are skipped untouched; any other
lead has its pause fields cleared and is set running before the node-type
dispatch. -/
def resume_lead_guard (lead : Lead) : Lead × EntryOutcome :=
  if lead.status = "completed" ∨ lead.status = "failed" then (lead, .returned)
  else ({ lead with wait_until := none, scheduled_task_id := none, status := "running" }, .proceed)

/-- A contact row parsed out of the uploaded CSV. -/
structure Contact where
  name : String := "Valued Customer"
  email : String := ""
  deriving Repr, DecidableEq

/-- The campaign document fields `start_campaign` touches. -/
structure Campaign where
  campaign_id : String := ""
  status : String := "draft"
  error_message : Option String := none
  deriving Repr, DecidableEq

/-- The observable outcome of `start_campaign`: the final campaign document,
the ordered statuses assigned to it along the way, how many lead documents
were created, and the returned response. -/
structure StartOutcome where
  campaign : Campaign
  statusTrace : List String
  createdLeads : Nat
  respStatus : String
  respLeadsCount : Option Nat
  deriving Repr, DecidableEq

/-- Model of `FlowExecutor.start_campaign(contact_file_data)` (lines 311-398) up to the
response it returns: bail out when the campaign is already
running/completed/failed; a validation failure marks the campaign failed;
`parsed = none` models a contact-file parse error (also failing the
campaign); an empty parsed contact list completes the campaign directly with
zero leads; otherwise one lead per contact is created and the campaign is set
running (the per-lead execution and the completion monitor that follow are
outside this function's model). -/
def start_campaign (c : Campaign) (validationOk : Bool)
    (parsed : Option (List Contact)) : StartOutcome :=
  if c.status = "running" ∨ c.status = "completed" ∨ c.status = "failed" then
    { campaign := c, statusTrace := [], createdLeads := 0
      respStatus := c.status, respLeadsCount := none }
  else if ¬ validationOk then
    { campaign := { c with status := "failed" }, statusTrace := ["failed"], createdLeads := 0
      respStatus := "error", respLeadsCount := none }
  else
    match parsed with
    | none =>
      { campaign := { c with status := "failed" }, statusTrace := ["failed"], createdLeads := 0
        respStatus := "error", respLeadsCount := none }
    | some [] =>
      { campaign := { c with status := "completed" }, statusTrace := ["completed"], createdLeads := 0
        respStatus := "completed", respLeadsCount := some 0 }
    | some contacts =>
      { campaign := { c with status := "running" }, statusTrace := ["running"]
        createdLeads := contacts.length
        respStatus := "started", respLeadsCount := some contacts.length }

/-- Breadth-first worklist accumulation of the node ids reachable from the
frontier along graph connections; `fuel` bounds the loop. -/
def reachAux (g : Graph) : Nat → List String → List String → List String
  | 0, _, acc => acc
  | _, [], acc => acc
  | fuel + 1, n :: rest, acc =>
    if n ∈ acc then reachAux g fuel rest acc
    else reachAux g fuel (rest ++ (connsOf g n).map Conn.to_node) (acc ++ [n])

/-- The set of node ids reachable from `start` — the formalisation of the
spec's "subgraph being re-entered" under a yes-branch switch. This is a
spec-side notion (the source has no such computation), used to state the
restricted-clear property the spec asserts. -/
def reachableFrom (g : Graph) (start : String) : List String :=
  reachAux g ((g.nodes.length + 1) * (g.connections.length + 1) + 1) [start] []

/-! Concrete fixtures for witnesses, counterexamples and failing inputs. -/

/-- The sendEmail node `e1` of the demo campaign. -/
def demoEmailNode : Node :=
  { id := "e1", type := "sendEmail"
    configuration := { subject := some "Hi", body := some "Hello" } }

/-- The condition node `c` (an email-open condition) of the demo campaign. -/
def demoConditionNode : Node :=
  { id := "c", type := "condition"
    configuration := { conditionType := some "open" } }

/-- A small demo campaign graph:
start `s` → email `e1` → condition `c` with yes → email `a` and
no → wait `w` → end `z`. -/
def demoGraph : Graph :=
  { nodes := [
      { id := "s", type := "start" },
      demoEmailNode,
      demoConditionNode,
      { id := "a", type := "sendEmail"
        configuration := { subject := some "Bonus", body := some "B" } },
      { id := "w", type := "wait"
        configuration := { waitDuration := some 5, waitUnit := some "minutes" } },
      { id := "z", type := "end" } ]
    connections := [
      { id := "c1", from_node := "s", to_node := "e1" },
      { id := "c2", from_node := "e1", to_node := "c" },
      { id := "c3-yes", from_node := "c", to_node := "a", connection_type := some "yes" },
      { id := "c4-no", from_node := "c", to_node := "w", connection_type := some "no" },
      { id := "c5", from_node := "w", to_node := "z" } ] }

/-- A lead of the demo campaign that has executed `s` and `e1` (the email was
sent) and sits at the condition node. -/
def demoLead : Lead :=
  { lead_id := "L1", campaign_id := "C1", email := "x@y.z", status := "running"
    current_node := some "c", execution_path := ["s", "e1"]
    completed_tasks := ["s", "e1"], sent_emails := ["e1"] }

/-- A processed (already consumed) email-open event of `demoLead` at the demo
condition node. -/
def demoEvent : LeadEvent :=
  { event_id := "ev1", lead_id := "L1", campaign_id := "C1", event_type := "email_open"
    condition_node_id := "c", created_at := 0, processed := true, processed_at := some 1
    email_node_id := some "e1" }

/-! Claim theorems. -/

/-- Claim C9: `_get_next_node_id` resolves `yes`/`no` branches first by
`connection_type` and then by a connection id containing the branch name;
`default` falls back to the first listed connection; and `None` comes back
exactly when no connection qualifies under these rules. -/
theorem c9_branch_resolution (g : Graph) (cur branch : String) :
    (((branch = "yes" ∨ branch = "no") ∧ (connsOf g cur).find? (connTypeMatches branch) = none) →
        get_next_node_id g cur branch = ((connsOf g cur).find? (connIdMatches branch)).map Conn.to_node)
    ∧ ((branch = "default" ∧ (connsOf g cur).find? (connTypeMatches branch) = none) →
        get_next_node_id g cur branch = (connsOf g cur).head?.map Conn.to_node)
    ∧ ((branch = "yes" ∨ branch = "no") →
        (get_next_node_id g cur branch = none ↔
          (connsOf g cur).find? (connTypeMatches branch) = none ∧
          (connsOf g cur).find? (connIdMatches branch) = none))
    ∧ (branch = "default" →
        (get_next_node_id g cur branch = none ↔ connsOf g cur = [])) := by
  refine ⟨?_, ?_, ?_, ?_⟩
  · rintro ⟨hb, hf⟩
    rw [get_next_node_id, hf, if_pos hb]
    have hnd : ¬ branch = "default" := by rcases hb with rfl | rfl <;> decide
    cases hi : (connsOf g cur).find? (connIdMatches branch) with
    | none => simp [hnd]
    | some c => simp
  · rintro ⟨hb, hf⟩
    subst hb
    rw [get_next_node_id, hf, if_neg (by decide : ¬(("default" : String) = "yes" ∨ ("default" : String) = "no"))]
    simp
  · intro hb
    have hnd : ¬ branch = "default" := by rcases hb with rfl | rfl <;> decide
    cases hf : (connsOf g cur).find? (connTypeMatches branch) with
    | none =>
      rw [get_next_node_id, hf, if_pos hb]
      cases hi : (connsOf g cur).find? (connIdMatches branch) with
      | none => simp [hnd]
      | some c => simp
    | some c =>
      rw [get_next_node_id, hf]
      simp
  · rintro rfl
    cases hc : connsOf g cur with
    | nil =>
      rw [get_next_node_id, hc]
      simp
    | cons c cs =>
      rw [get_next_node_id, hc]
      cases hf : (c :: cs).find? (connTypeMatches "default") <;> simp

/-- Witness for c9_branch_resolution: a condition node whose only outgoing
connection has no `connection_type` but the id `conn-yes-1`, so the yes
branch is resolved through the id-substring fallback. -/
def c9Graph : Graph :=
  { nodes := [{ id := "c", type := "condition" }, { id := "a", type := "sendEmail" }]
    connections := [{ id := "conn-yes-1", from_node := "c", to_node := "a" }] }

/-- Witness applying c9_branch_resolution to `c9Graph` at branch `yes`. -/
theorem c9_branch_resolution_witness :
    ((("yes" : String) = "yes" ∨ ("yes" : String) = "no") ∧
        (connsOf c9Graph "c").find? (connTypeMatches "yes") = none)
    ∧ get_next_node_id c9Graph "c" "yes"
        = ((connsOf c9Graph "c").find? (connIdMatches "yes")).map Conn.to_node :=
  ⟨⟨Or.inl rfl, by decide⟩, (c9_branch_resolution c9Graph "c" "yes").1 ⟨Or.inl rfl, by decide⟩⟩

/-- Claim C1: when `_execute_single_node` processes an action (sendEmail) node
whose id is already in the lead's `completed_tasks`, it skips all side
effects — the lead, the event store and the effect trace are untouched (in
particular no `send_email_task` dispatch is requested) — and advances via the
precomputed default branch. -/
theorem c1_replay_skips_action_dispatch (g : Graph) (cid : String) (lead : Lead)
    (node : Node) (node_id : String) (store : List LeadEvent)
    (locks globalSends : List String) (fresh taskId : String) (now : Nat)
    (hfind : findNode g node_id = some node) (htype : node.type = "sendEmail")
    (hdone : node_id ∈ lead.completed_tasks) :
    execute_single_node g cid lead node_id store locks globalSends fresh taskId now
      = { res := { status := "completed", next_node := get_next_node_id g node_id "default" }
          lead := lead, events := store, ops := [] }
    ∧ ∀ m, Op.dispatchEmail m
        ∉ (execute_single_node g cid lead node_id store locks globalSends fresh taskId now).ops := by
  have h : execute_single_node g cid lead node_id store locks globalSends fresh taskId now
      = { res := { status := "completed", next_node := get_next_node_id g node_id "default" }
          lead := lead, events := store, ops := [] } := by
    rw [execute_single_node, hfind]
    simp [hdone]
  exact ⟨h, by rw [h]; simp⟩

/-- Witness applying c1_replay_skips_action_dispatch to the demo lead, which
has the email node `e1` in `completed_tasks` already. -/
theorem c1_replay_skips_action_dispatch_witness :
    (findNode demoGraph "e1" = some demoEmailNode ∧ demoEmailNode.type = "sendEmail"
      ∧ "e1" ∈ demoLead.completed_tasks)
    ∧ execute_single_node demoGraph "C1" demoLead "e1" [] [] [] "f" "t" 0
        = { res := { status := "completed", next_node := get_next_node_id demoGraph "e1" "default" }
            lead := demoLead, events := [], ops := [] }
    ∧ ∀ m, Op.dispatchEmail m
        ∉ (execute_single_node demoGraph "C1" demoLead "e1" [] [] [] "f" "t" 0).ops :=
  ⟨⟨by decide, rfl, by decide⟩,
    c1_replay_skips_action_dispatch demoGraph "C1" demoLead demoEmailNode "e1" [] [] [] "f" "t" 0
      (by decide) rfl (by decide)⟩

/-- Shape of the effect trace of `_execute_send_email_node`: either no
external effect at all, or exactly one persisted save followed by one
dispatch, where the saved lead already carries the node id in `sent_emails`
and is paused. -/
theorem send_email_ops_shape (g : Graph) (lead : Lead) (node : Node) (globalSends : List String) :
    (execute_send_email_node g lead node globalSends).2.2 = [] ∨
    ∃ l', (execute_send_email_node g lead node globalSends).2.2
        = [Op.persistLead l', Op.dispatchEmail node.id]
      ∧ node.id ∈ l'.sent_emails ∧ l'.status = "paused" := by
  simp only [execute_send_email_node]
  repeat' split
  all_goals try exact Or.inl rfl
  right
  exact ⟨_, rfl, by simp, rfl⟩

/-- Claim C2: in every execution of `_execute_send_email_node`, any
`send_email_task` dispatch in the effect trace is strictly preceded by a
persisted lead save in which the node id is already in `sent_emails` and the
status is `paused` — dispatch-before-mark never occurs. -/
theorem c2_mark_persisted_before_dispatch (g : Graph) (lead : Lead) (node : Node)
    (globalSends : List String) (i : Nat) (nid : String)
    (h : (execute_send_email_node g lead node globalSends).2.2.get? i
        = some (Op.dispatchEmail nid)) :
    ∃ j l', j < i ∧
      (execute_send_email_node g lead node globalSends).2.2.get? j = some (Op.persistLead l')
      ∧ nid ∈ l'.sent_emails ∧ l'.status = "paused" := by
  rcases send_email_ops_shape g lead node globalSends with hsh | ⟨l', hsh, hmem, hst⟩
  · rw [hsh] at h
    simp at h
  · rw [hsh] at h ⊢
    match i, h with
    | 1, h =>
      have hn : nid = node.id := by
        simp only [List.get?] at h
        cases h
        rfl
      exact ⟨0, l', Nat.zero_lt_one, rfl, hn ▸ hmem, hst⟩

/-- Witness applying c2_mark_persisted_before_dispatch to a lead that has not
yet sent `e1`: the dispatch sits at trace index 1, the persisted mark at 0. -/
theorem c2_mark_persisted_before_dispatch_witness :
    (execute_send_email_node demoGraph { demoLead with sent_emails := [] } demoEmailNode []).2.2.get? 1
      = some (Op.dispatchEmail "e1")
    ∧ ∃ j l', j < 1 ∧
      (execute_send_email_node demoGraph { demoLead with sent_emails := [] } demoEmailNode []).2.2.get? j
        = some (Op.persistLead l')
      ∧ "e1" ∈ l'.sent_emails ∧ l'.status = "paused" :=
  ⟨by decide,
    c2_mark_persisted_before_dispatch demoGraph { demoLead with sent_emails := [] } demoEmailNode []
      1 "e1" (by decide)⟩

/-- Claim C3 counterexample: the email node `e1` lies outside the yes
subgraph being re-entered (it is not reachable from the yes successor `a`),
yet the branch switch removes its `completed_tasks` ledger entry — the clear
is not restricted to the re-entered subgraph. -/
theorem c3_counterexample :
    "e1" ∈ demoLead.completed_tasks
    ∧ get_next_node_id demoGraph "c" "yes" = some "a"
    ∧ "e1" ∉ reachableFrom demoGraph "a"
    ∧ "e1" ∉ (resume_lead_from_condition_switch demoGraph demoLead "c" true []).completed_tasks := by
  refine ⟨by decide, by decide, by decide, by decide⟩

/-- Claim C3 (amended): when `resume_lead_from_condition` switches a
non-terminal lead to the yes branch of a valid condition node, it clears
`completed_tasks` and `completed_waits` entirely (not restricted to the yes
subgraph), appends the `SWITCHED_TO_YES:` branch-switch marker to
`execution_path`, redirects `current_node` to the condition's yes successor,
and sets the lead running. -/
theorem c3_branch_switch_amended (g : Graph) (lead : Lead) (cnid y : String)
    (locks : List String) (n : Node)
    (hlock : (lead.lead_id ++ "_" ++ cnid) ∉ locks)
    (hc : lead.status ≠ "completed") (hf : lead.status ≠ "failed")
    (hn : findNode g cnid = some n) (ht : n.type = "condition")
    (hy : get_next_node_id g cnid "yes" = some y) :
    (resume_lead_from_condition_switch g lead cnid true locks).completed_tasks = []
    ∧ (resume_lead_from_condition_switch g lead cnid true locks).completed_waits = []
    ∧ (resume_lead_from_condition_switch g lead cnid true locks).current_node = some y
    ∧ (resume_lead_from_condition_switch g lead cnid true locks).execution_path
        = lead.execution_path ++ ["SWITCHED_TO_YES:" ++ y]
    ∧ (resume_lead_from_condition_switch g lead cnid true locks).status = "running" := by
  have hres : resume_lead_from_condition_switch g lead cnid true locks
      = { lead with
          scheduled_task_id := none
          current_node := some y
          execution_path := lead.execution_path ++ ["SWITCHED_TO_YES:" ++ y]
          completed_tasks := []
          completed_waits := []
          status := "running" } := by
    rw [resume_lead_from_condition_switch, if_neg hlock, if_neg (by simp [hc, hf]), hn]
    simp only [ht]
    rw [if_neg (by simp), if_pos trivial, hy]
    rfl
  rw [hres]
  exact ⟨rfl, rfl, rfl, rfl, rfl⟩

/-- Witness applying c3_branch_switch_amended to the demo lead at the demo
condition node. -/
theorem c3_branch_switch_amended_witness :
    (("L1" ++ "_" ++ "c") ∉ ([] : List String)
      ∧ demoLead.status ≠ "completed" ∧ demoLead.status ≠ "failed"
      ∧ findNode demoGraph "c" = some demoConditionNode ∧ demoConditionNode.type = "condition"
      ∧ get_next_node_id demoGraph "c" "yes" = some "a")
    ∧ (resume_lead_from_condition_switch demoGraph demoLead "c" true []).completed_tasks = []
    ∧ (resume_lead_from_condition_switch demoGraph demoLead "c" true []).completed_waits = []
    ∧ (resume_lead_from_condition_switch demoGraph demoLead "c" true []).current_node = some "a"
    ∧ (resume_lead_from_condition_switch demoGraph demoLead "c" true []).execution_path
        = demoLead.execution_path ++ ["SWITCHED_TO_YES:" ++ "a"]
    ∧ (resume_lead_from_condition_switch demoGraph demoLead "c" true []).status = "running" :=
  ⟨⟨by decide, by decide, by decide, by decide, rfl, by decide⟩,
    c3_branch_switch_amended demoGraph demoLead "c" "a" [] demoConditionNode
      (by decide) (by decide) (by decide) (by decide) rfl (by decide)⟩

/-- Claim C5 counterexample: the demo lead satisfies the containment
`sent_emails ⊆ completed_tasks` before the branch switch, but after
`resume_lead_from_condition` clears `completed_tasks` while leaving
`sent_emails` intact, the containment fails. -/
theorem c5_counterexample :
    "e1" ∈ demoLead.sent_emails ∧ "e1" ∈ demoLead.completed_tasks
    ∧ ¬ (∀ x, x ∈ (resume_lead_from_condition_switch demoGraph demoLead "c" true []).sent_emails →
          x ∈ (resume_lead_from_condition_switch demoGraph demoLead "c" true []).completed_tasks) := by
  refine ⟨by decide, by decide, fun hsub => ?_⟩
  exact absurd (hsub "e1" (by decide)) (by decide)

/-- Claim C5 (amended): `_mark_node_as_executing` preserves both halves of the
ledger invariant — `completed_tasks` stays duplicate-free and
`sent_emails ⊆ completed_tasks` is maintained — but the branch switch of
`resume_lead_from_condition` empties `completed_tasks` while keeping
`sent_emails` unchanged, so the containment survives a branch switch only for
leads with no sent emails. -/
theorem c5_ledger_invariant_amended :
    (∀ (lead : Lead) (nid : String),
        lead.completed_tasks.Nodup → (mark_node_as_executing lead nid).completed_tasks.Nodup)
    ∧ (∀ (lead : Lead) (nid : String),
        (∀ x, x ∈ lead.sent_emails → x ∈ lead.completed_tasks) →
        ∀ x, x ∈ (mark_node_as_executing lead nid).sent_emails →
          x ∈ (mark_node_as_executing lead nid).completed_tasks)
    ∧ (∀ (g : Graph) (lead : Lead) (cnid : String) (locks : List String) (n : Node),
        (lead.lead_id ++ "_" ++ cnid) ∉ locks →
        lead.status ≠ "completed" → lead.status ≠ "failed" →
        findNode g cnid = some n → n.type = "condition" →
        (resume_lead_from_condition_switch g lead cnid true locks).completed_tasks = []
        ∧ (resume_lead_from_condition_switch g lead cnid true locks).sent_emails
            = lead.sent_emails) := by
  refine ⟨?_, ?_, ?_⟩
  · intro lead nid hnd
    rw [mark_node_as_executing]
    by_cases h : nid ∈ lead.completed_tasks
    · simpa [h] using hnd
    · simp only [if_neg h]
      rw [List.nodup_append]
      refine ⟨hnd, List.nodup_singleton _, fun a ha hb => ?_⟩
      simp only [List.mem_singleton] at hb
      exact h (hb ▸ ha)
  · intro lead nid hsub x hx
    rw [mark_node_as_executing] at hx ⊢
    by_cases h : nid ∈ lead.completed_tasks
    · simp only [if_pos h]
      exact hsub x hx
    · simp only [if_neg h]
      exact List.mem_append_left _ (hsub x hx)
  · intro g lead cnid locks n hlock hc hf hn ht
    have hres : (resume_lead_from_condition_switch g lead cnid true locks).completed_tasks = []
        ∧ (resume_lead_from_condition_switch g lead cnid true locks).sent_emails
            = lead.sent_emails := by
      rw [resume_lead_from_condition_switch, if_neg hlock, if_neg (by simp [hc, hf]), hn]
      simp only [ht]
      rw [if_neg (by simp), if_pos trivial]
      exact ⟨rfl, rfl⟩
    exact hres

/-- Witness applying the three parts of c5_ledger_invariant_amended to the
demo lead and graph. -/
theorem c5_ledger_invariant_amended_witness :
    (demoLead.completed_tasks.Nodup
      ∧ (mark_node_as_executing demoLead "c").completed_tasks.Nodup)
    ∧ (∀ x, x ∈ (mark_node_as_executing demoLead "c").sent_emails →
        x ∈ (mark_node_as_executing demoLead "c").completed_tasks)
    ∧ ((resume_lead_from_condition_switch demoGraph demoLead "c" true []).completed_tasks = []
      ∧ (resume_lead_from_condition_switch demoGraph demoLead "c" true []).sent_emails
          = demoLead.sent_emails) :=
  ⟨⟨by decide, c5_ledger_invariant_amended.1 demoLead "c" (by decide)⟩,
    c5_ledger_invariant_amended.2.1 demoLead "c" (fun x hx => by
      fin_cases hx
      decide),
    c5_ledger_invariant_amended.2.2 demoGraph demoLead "c" [] demoConditionNode
      (by decide) (by decide) (by decide) (by decide) rfl⟩

/-- Claim C7 counterexample: `execute_lead` validates the email address
before the terminal-status check, so a completed lead with a blank email is
mutated — it is marked failed. -/
def c7Lead : Lead :=
  { lead_id := "L1", campaign_id := "C1", email := "", status := "completed"
    current_node := some "s" }

/-- Claim C7 counterexample theorem: invoking the `execute_lead` entry point
on the terminal (completed) blank-email lead changes its status to failed
instead of returning it unmodified. -/
theorem c7_counterexample :
    c7Lead.status = "completed"
    ∧ (execute_lead_guard demoGraph c7Lead).1.status = "failed"
    ∧ (execute_lead_guard demoGraph c7Lead).1 ≠ c7Lead := by
  refine ⟨rfl, by decide, by decide⟩

/-- Claim C7 (amended): a terminal (completed or failed) lead is returned
unmodified by every resume entry point — `resume_lead`,
`resume_lead_from_condition` — and by `execute_lead` provided its email is
non-blank; with a blank email, `execute_lead` marks even a terminal lead
failed because the email validation precedes the terminal-status check. -/
theorem c7_terminal_guards_amended :
    (∀ (g : Graph) (lead : Lead),
        (lead.status = "completed" ∨ lead.status = "failed") → isBlank lead.email = false →
        execute_lead_guard g lead = (lead, .returned))
    ∧ (∀ lead : Lead, (lead.status = "completed" ∨ lead.status = "failed") →
        resume_lead_guard lead = (lead, .returned))
    ∧ (∀ (g : Graph) (lead : Lead) (cnid : String) (cm : Bool) (locks : List String),
        (lead.status = "completed" ∨ lead.status = "failed") →
        resume_lead_from_condition_switch g lead cnid cm locks = lead) := by
  refine ⟨?_, ?_, ?_⟩
  · intro g lead hterm hemail
    rw [execute_lead_guard, if_neg (by simp [hemail]), if_pos hterm]
  · intro lead hterm
    rw [resume_lead_guard, if_pos hterm]
  · intro g lead cnid cm locks hterm
    rw [resume_lead_from_condition_switch]
    by_cases hlock : (lead.lead_id ++ "_" ++ cnid) ∈ locks
    · rw [if_pos hlock]
    · rw [if_neg hlock, if_pos hterm]

/-- Witness applying c7_terminal_guards_amended to a completed lead with a
non-blank email. -/
theorem c7_terminal_guards_amended_witness :
    (({ demoLead with status := "completed" } : Lead).status = "completed"
      ∧ isBlank ({ demoLead with status := "completed" } : Lead).email = false)
    ∧ execute_lead_guard demoGraph { demoLead with status := "completed" }
        = ({ demoLead with status := "completed" }, .returned)
    ∧ resume_lead_guard { demoLead with status := "completed" }
        = ({ demoLead with status := "completed" }, .returned)
    ∧ resume_lead_from_condition_switch demoGraph { demoLead with status := "completed" } "c" true []
        = { demoLead with status := "completed" } :=
  ⟨⟨rfl, by decide⟩,
    c7_terminal_guards_amended.1 demoGraph _ (Or.inl rfl) (by decide),
    c7_terminal_guards_amended.2.1 _ (Or.inl rfl),
    c7_terminal_guards_amended.2.2 demoGraph _ "c" true [] (Or.inl rfl)⟩

/-- Claim C10: when the contact file parses to an empty lead list,
`start_campaign` completes the campaign directly with a `leads_count` of 0 —
no lead documents are created and the campaign never passes through the
running state. -/
theorem c10_empty_contacts_completes (c : Campaign)
    (h1 : c.status ≠ "running") (h2 : c.status ≠ "completed") (h3 : c.status ≠ "failed") :
    start_campaign c true (some [])
      = { campaign := { c with status := "completed" }, statusTrace := ["completed"]
          createdLeads := 0, respStatus := "completed", respLeadsCount := some 0 }
    ∧ (start_campaign c true (some [])).createdLeads = 0
    ∧ "running" ∉ (start_campaign c true (some [])).statusTrace := by
  have h : start_campaign c true (some [])
      = { campaign := { c with status := "completed" }, statusTrace := ["completed"]
          createdLeads := 0, respStatus := "completed", respLeadsCount := some 0 } := by
    rw [start_campaign, if_neg (by simp [h1, h2, h3]), if_neg (by simp)]
  refine ⟨h, by rw [h], by rw [h]; simp⟩

/-- Witness applying c10_empty_contacts_completes to a draft campaign. -/
theorem c10_empty_contacts_completes_witness :
    (({ campaign_id := "C1", status := "draft" } : Campaign).status ≠ "running"
      ∧ ({ campaign_id := "C1", status := "draft" } : Campaign).status ≠ "completed"
      ∧ ({ campaign_id := "C1", status := "draft" } : Campaign).status ≠ "failed")
    ∧ start_campaign { campaign_id := "C1", status := "draft" } true (some [])
      = { campaign := { campaign_id := "C1", status := "completed" }, statusTrace := ["completed"]
          createdLeads := 0, respStatus := "completed", respLeadsCount := some 0 } :=
  ⟨⟨by decide, by decide, by decide⟩,
    ((c10_empty_contacts_completes { campaign_id := "C1", status := "draft" }
      (by decide) (by decide) (by decide)).1)⟩

/-- A store already holding one unresolved waiting event for the pair
(lead `L1`, condition node `c`) — exactly what a first `recordWaiting` call
on an empty store produces. -/
def c8Store : List LeadEvent :=
  [newWaitingEvent "C1" "L1" "c" (some "e1") "email_open" none "f1" 0]

/-- Claim C8 counterexample: re-invoking
`create_waiting_event_with_context` for the same (lead, condition node) while
an unresolved waiting event already exists inserts a second unresolved event
— the operation is not idempotent per pair. -/
theorem c8_counterexample :
    create_waiting_event_with_context [] "C1" "L1" "c" (some "e1") "email_open" none "f1" 0
      = Except.ok c8Store
    ∧ unresolvedWaitingCount c8Store "L1" "c" = 1
    ∧ create_waiting_event_with_context c8Store "C1" "L1" "c" (some "e1") "email_open" none "f2" 1
      = Except.ok (c8Store ++ [newWaitingEvent "C1" "L1" "c" (some "e1") "email_open" none "f2" 1])
    ∧ unresolvedWaitingCount
        (c8Store ++ [newWaitingEvent "C1" "L1" "c" (some "e1") "email_open" none "f2" 1]) "L1" "c"
      = 2 := by
  exact ⟨rfl, rfl, rfl, rfl⟩

/-- Claim C8 (amended): `create_waiting_event_with_context` is not idempotent:
every call that passes validation appends a fresh unprocessed WaitingEvent,
so the number of unresolved events for the (lead, condition node) pair grows
by exactly one per invocation. -/
theorem c8_record_waiting_amended (store : List LeadEvent) (cid lid cnid : String)
    (enid : Option String) (etype : String) (turl : Option String) (fresh : String) (now : Nat)
    (hl : isBlank lid = false) (hc : isBlank cnid = false)
    (ht : etype = "email_open" ∨ etype = "link_click")
    (hu : etype = "link_click" → turl.getD "" ≠ "") :
    create_waiting_event_with_context store cid lid cnid enid etype turl fresh now
      = Except.ok (store ++ [newWaitingEvent cid lid cnid enid etype turl fresh now])
    ∧ unresolvedWaitingCount (store ++ [newWaitingEvent cid lid cnid enid etype turl fresh now]) lid cnid
      = unresolvedWaitingCount store lid cnid + 1 := by
  constructor
  · rw [create_waiting_event_with_context, if_neg (by simp [hl]), if_neg (by simp [hc]),
      if_neg (not_not_intro ht), if_neg ?_]
    rintro ⟨he, hurl⟩
    exact hu he hurl
  · rw [unresolvedWaitingCount, unresolvedWaitingCount, List.filter_append]
    rw [List.length_append]
    congr 1
    simp [newWaitingEvent]

/-- Witness applying c8_record_waiting_amended to the singleton store. -/
theorem c8_record_waiting_amended_witness :
    (isBlank "L1" = false ∧ isBlank "c" = false
      ∧ (("email_open" : String) = "email_open" ∨ ("email_open" : String) = "link_click"))
    ∧ create_waiting_event_with_context c8Store "C1" "L1" "c" (some "e1") "email_open" none "f2" 1
      = Except.ok (c8Store ++ [newWaitingEvent "C1" "L1" "c" (some "e1") "email_open" none "f2" 1])
    ∧ unresolvedWaitingCount
        (c8Store ++ [newWaitingEvent "C1" "L1" "c" (some "e1") "email_open" none "f2" 1]) "L1" "c"
      = unresolvedWaitingCount c8Store "L1" "c" + 1 :=
  ⟨⟨by decide, by decide, Or.inl rfl⟩,
    (c8_record_waiting_amended c8Store "C1" "L1" "c" (some "e1") "email_open" none "f2" 1
      (by decide) (by decide) (Or.inl rfl) (fun h => by simp at h)).1,
    (c8_record_waiting_amended c8Store "C1" "L1" "c" (some "e1") "email_open" none "f2" 1
      (by decide) (by decide) (Or.inl rfl) (fun h => by simp at h)).2⟩

/-- Claim C4 (code-bug evidence): the demo lead reaches the open-condition
node `c` with an already-consumed matching `email_open` WaitingEvent in the
store, yet `_execute_condition_node` does not advance to the yes successor
`a`: `check_existing_event` is queried with the condition type `"open"`,
which never equals the stored event type `"email_open"`, so the short-circuit
is dead — the engine instead inserts a brand-new waiting event and continues
into the no-branch successor `w`. -/
theorem c4_existing_event_short_circuit_dead :
    demoEvent ∈ [demoEvent]
    ∧ demoEvent.event_type = "email_open" ∧ demoEvent.processed = true
    ∧ demoEvent.lead_id = demoLead.lead_id ∧ demoEvent.campaign_id = "C1"
    ∧ get_next_node_id demoGraph "c" "yes" = some "a"
    ∧ check_existing_event [demoEvent] "C1" "L1" "open" none = false
    ∧ check_existing_event [demoEvent] "C1" "L1" "email_open" none = true
    ∧ (execute_condition_node demoGraph "C1" demoLead demoConditionNode [demoEvent] [] "f1" 10).1
        = { status := "completed", next_node := some "w" }
    ∧ (execute_condition_node demoGraph "C1" demoLead demoConditionNode [demoEvent] [] "f1" 10).2.length
        = 2 := by
  exact ⟨by decide, rfl, rfl, rfl, rfl, by decide, by decide, by decide, by decide, by decide⟩

/-- Unfolding equation of `oldestMatchIdx` on a cons cell whose tail has no
match. -/
theorem oldestMatchIdx_cons_none {p : LeadEvent → Bool} {a : LeadEvent} {as : List LeadEvent}
    (hr : oldestMatchIdx p as = none) :
    oldestMatchIdx p (a :: as) = if p a then some (0, a) else none := by
  rw [oldestMatchIdx, hr]

/-- Unfolding equation of `oldestMatchIdx` on a cons cell whose tail already
has a match. -/
theorem oldestMatchIdx_cons_some {p : LeadEvent → Bool} {a : LeadEvent} {as : List LeadEvent}
    {j : Nat} {e2 : LeadEvent} (hr : oldestMatchIdx p as = some (j, e2)) :
    oldestMatchIdx p (a :: as) =
      if p a then (if e2.created_at < a.created_at then some (j + 1, e2) else some (0, a))
      else some (j + 1, e2) := by
  rw [oldestMatchIdx, hr]

/-- The function `oldestMatchIdx` is `none` exactly when nothing in the list matches. -/
theorem oldestMatchIdx_eq_none {p : LeadEvent → Bool} {l : List LeadEvent} :
    oldestMatchIdx p l = none ↔ ∀ e ∈ l, p e = false := by
  induction l with
  | nil => simp [oldestMatchIdx]
  | cons a as ih =>
    cases hr : oldestMatchIdx p as with
    | none =>
      rw [oldestMatchIdx_cons_none hr]
      by_cases hp : p a
      · rw [if_pos hp]
        simp only [List.forall_mem_cons]
        constructor
        · intro h; cases h
        · rintro ⟨h1, _⟩
          rw [hp] at h1
          cases h1
      · rw [if_neg hp]
        simp only [List.forall_mem_cons]
        constructor
        · intro _
          exact ⟨Bool.eq_false_iff.mpr hp, ih.mp hr⟩
        · intro _
          trivial
    | some pr =>
      obtain ⟨j, e2⟩ := pr
      rw [oldestMatchIdx_cons_some hr]
      constructor
      · intro h
        by_cases hp : p a
        · rw [if_pos hp] at h
          split at h <;> cases h
        · rw [if_neg hp] at h
          cases h
      · intro hall
        rw [List.forall_mem_cons] at hall
        rw [ih.mpr hall.2] at hr
        cases hr

/-- An event selected by `oldestMatchIdx` satisfies the predicate, sits at
the returned index, and has minimal `created_at` among all matches. -/
theorem oldestMatchIdx_spec {p : LeadEvent → Bool} {l : List LeadEvent} :
    ∀ {i : Nat} {e : LeadEvent}, oldestMatchIdx p l = some (i, e) →
    l.get? i = some e ∧ p e = true ∧ ∀ e' ∈ l, p e' = true → e.created_at ≤ e'.created_at := by
  induction l with
  | nil => intro i e h; simp [oldestMatchIdx] at h
  | cons a as ih =>
    intro i e h
    cases hr : oldestMatchIdx p as with
    | none =>
      rw [oldestMatchIdx_cons_none hr] at h
      by_cases hp : p a
      · rw [if_pos hp] at h
        simp only [Option.some.injEq, Prod.mk.injEq] at h
        obtain ⟨rfl, rfl⟩ := h
        refine ⟨rfl, hp, ?_⟩
        intro e' he' hpe'
        rcases List.mem_cons.mp he' with rfl | hmem
        · exact le_refl _
        · simp [oldestMatchIdx_eq_none.mp hr e' hmem] at hpe'
      · rw [if_neg hp] at h
        cases h
    | some pr =>
      obtain ⟨j, e2⟩ := pr
      rw [oldestMatchIdx_cons_some hr] at h
      obtain ⟨hg2, hp2, hmin2⟩ := ih hr
      by_cases hp : p a
      · rw [if_pos hp] at h
        by_cases hlt : e2.created_at < a.created_at
        · rw [if_pos hlt] at h
          simp only [Option.some.injEq, Prod.mk.injEq] at h
          obtain ⟨rfl, rfl⟩ := h
          refine ⟨hg2, hp2, ?_⟩
          intro e' he' hpe'
          rcases List.mem_cons.mp he' with rfl | hmem
          · exact le_of_lt hlt
          · exact hmin2 e' hmem hpe'
        · rw [if_neg hlt] at h
          simp only [Option.some.injEq, Prod.mk.injEq] at h
          obtain ⟨rfl, rfl⟩ := h
          refine ⟨rfl, hp, ?_⟩
          intro e' he' hpe'
          rcases List.mem_cons.mp he' with rfl | hmem
          · exact le_refl _
          · exact le_trans (not_lt.mp hlt) (hmin2 e' hmem hpe')
      · rw [if_neg hp] at h
        simp only [Option.some.injEq, Prod.mk.injEq] at h
        obtain ⟨rfl, rfl⟩ := h
        refine ⟨hg2, hp2, ?_⟩
        intro e' he' hpe'
        rcases List.mem_cons.mp he' with rfl | hmem
        · exact absurd hpe' hp
        · exact hmin2 e' hmem hpe'

/-- A matching event is, in particular, unprocessed. -/
theorem matchesEvent_processed_false {cid lid etype : String} {turl : Option String}
    {e : LeadEvent} (h : matchesEvent cid lid etype turl e = true) : e.processed = false := by
  rw [matchesEvent.eq_def] at h
  simp only [Bool.and_eq_true] at h
  exact (of_decide_eq_true h.1).2.2.2

/-- An exact-url match is also a match of the url-free fallback filter. -/
theorem matchesEvent_drop_url {cid lid etype : String} {turl : Option String}
    {e : LeadEvent} (h : matchesEvent cid lid etype turl e = true) :
    matchesEvent cid lid etype none e = true := by
  rw [matchesEvent.eq_def] at h ⊢
  simp only [Bool.and_eq_true] at h
  simp [h.1]

/-- The predicate `usedEventFilter` is either the exact-url filter — and then an exact match
exists in the store — or the url-free fallback filter. -/
theorem usedEventFilter_cases (store : List LeadEvent) (cid lid etype : String)
    (turl : Option String) :
    (usedEventFilter store cid lid etype turl = matchesEvent cid lid etype turl
      ∧ turl.getD "" ≠ "" ∧ store.any (matchesEvent cid lid etype turl) = true)
    ∨ usedEventFilter store cid lid etype turl = matchesEvent cid lid etype none := by
  rw [usedEventFilter]
  by_cases h1 : turl.getD "" ≠ ""
  · rw [if_pos h1]
    by_cases h2 : store.any (matchesEvent cid lid etype turl) = true
    · rw [if_pos h2]
      exact Or.inl ⟨rfl, h1, h2⟩
    · rw [if_neg h2]
      exact Or.inr rfl
  · rw [if_neg h1]
    exact Or.inr rfl

/-- Whatever the actually-used filter matches also matches the url-free
fallback filter. -/
theorem usedEventFilter_matches {store : List LeadEvent} {cid lid etype : String}
    {turl : Option String} {e : LeadEvent}
    (h : usedEventFilter store cid lid etype turl e = true) :
    matchesEvent cid lid etype none e = true := by
  rcases usedEventFilter_cases store cid lid etype turl with ⟨hupd, _, _⟩ | hupd
  · rw [hupd] at h
    exact matchesEvent_drop_url h
  · rw [hupd] at h
    exact h

/-- Claim C6: `process_event` returns `none` exactly when no unprocessed
matching event exists for the lead and kind; otherwise it flips `processed`
on exactly one store entry — a matching one with minimal `created_at` —
and returns that event's `condition_node_id`; and when a target url is
supplied, the exact-url filter is the one used whenever it matches anything,
the search widening to the url-free filter only otherwise. -/
theorem c6_process_event_consumes_oldest (store : List LeadEvent) (cid lid etype : String)
    (turl : Option String) (now : Nat)
    (hl : isBlank lid = false) (ht : etype = "email_open" ∨ etype = "link_click") :
    ((process_event store cid lid etype turl now).1 = none ↔
        ∀ e ∈ store, matchesEvent cid lid etype none e = false)
    ∧ (∀ cnid, (process_event store cid lid etype turl now).1 = some cnid →
        ∃ i e, store.get? i = some e
          ∧ usedEventFilter store cid lid etype turl e = true
          ∧ cnid = e.condition_node_id
          ∧ (process_event store cid lid etype turl now).2
              = store.set i { e with processed := true, processed_at := some now }
          ∧ ∀ e' ∈ store, usedEventFilter store cid lid etype turl e' = true →
              e.created_at ≤ e'.created_at)
    ∧ (turl.getD "" ≠ "" → store.any (matchesEvent cid lid etype turl) = true →
        usedEventFilter store cid lid etype turl = matchesEvent cid lid etype turl) := by
  have hpe : process_event store cid lid etype turl now =
      match oldestMatchIdx (usedEventFilter store cid lid etype turl) store with
      | none => (none, store)
      | some (i, e) =>
        if e.processed then (none, store)
        else (some e.condition_node_id,
          store.set i { e with processed := true, processed_at := some now }) := by
    rw [process_event, if_neg (by simp [hl]), if_neg (not_not_intro ht)]
  have hnone : oldestMatchIdx (usedEventFilter store cid lid etype turl) store = none →
      process_event store cid lid etype turl now = (none, store) := by
    intro h
    rw [hpe, h]
  have hsome : ∀ i e, oldestMatchIdx (usedEventFilter store cid lid etype turl) store = some (i, e) →
      e.processed = false →
      process_event store cid lid etype turl now
        = (some e.condition_node_id,
            store.set i { e with processed := true, processed_at := some now }) := by
    intro i e h hproc
    rw [hpe, h]
    simp [hproc]
  refine ⟨?_, ?_, ?_⟩
  · cases ho : oldestMatchIdx (usedEventFilter store cid lid etype turl) store with
    | none =>
      rw [hnone ho]
      have hall := oldestMatchIdx_eq_none.mp ho
      rcases usedEventFilter_cases store cid lid etype turl with ⟨hupd, _, hany⟩ | hupd
      · rcases List.any_eq_true.mp hany with ⟨e, he, hex⟩
        have hue : usedEventFilter store cid lid etype turl e = true := by
          rw [hupd]; exact hex
        rw [hall e he] at hue
        cases hue
      · constructor
        · intro _ e he
          have h1 := hall e he
          rwa [hupd] at h1
        · intro _; rfl
    | some pr =>
      obtain ⟨i, e⟩ := pr
      obtain ⟨hg, hp, _⟩ := oldestMatchIdx_spec ho
      have hproc : e.processed = false := matchesEvent_processed_false (usedEventFilter_matches hp)
      rw [hsome i e ho hproc]
      constructor
      · intro hcontra; cases hcontra
      · intro hall
        exfalso
        have hbase := usedEventFilter_matches hp
        have hmem : e ∈ store := List.get?_mem hg
        rw [hall e hmem] at hbase
        cases hbase
  · intro cnid hc
    cases ho : oldestMatchIdx (usedEventFilter store cid lid etype turl) store with
    | none =>
      rw [hnone ho] at hc
      cases hc
    | some pr =>
      obtain ⟨i, e⟩ := pr
      obtain ⟨hg, hp, hmin⟩ := oldestMatchIdx_spec ho
      have hproc : e.processed = false := matchesEvent_processed_false (usedEventFilter_matches hp)
      rw [hsome i e ho hproc] at hc
      simp only [Option.some.injEq] at hc
      refine ⟨i, e, hg, hp, hc.symm, ?_, hmin⟩
      rw [hsome i e ho hproc]
  · intro hurl hany
    rw [usedEventFilter, if_pos hurl, if_pos hany]

/-- A store with two unprocessed email-open events of the same lead, the
younger one listed first. -/
def c6Store : List LeadEvent :=
  [{ event_id := "evA", lead_id := "L1", campaign_id := "C1", event_type := "email_open"
     condition_node_id := "c2", created_at := 7, processed := false },
   { event_id := "evB", lead_id := "L1", campaign_id := "C1", event_type := "email_open"
     condition_node_id := "c1", created_at := 3, processed := false }]

/-- Witness applying c6_process_event_consumes_oldest to `c6Store`: the older
event `evB` (created at 3) is the one consumed. -/
theorem c6_process_event_consumes_oldest_witness :
    (isBlank "L1" = false
      ∧ (("email_open" : String) = "email_open" ∨ ("email_open" : String) = "link_click"))
    ∧ (process_event c6Store "C1" "L1" "email_open" none 9).1 = some "c1"
    ∧ ∃ i e, c6Store.get? i = some e
        ∧ usedEventFilter c6Store "C1" "L1" "email_open" none e = true
        ∧ "c1" = e.condition_node_id
        ∧ (process_event c6Store "C1" "L1" "email_open" none 9).2
            = c6Store.set i { e with processed := true, processed_at := some 9 }
        ∧ ∀ e' ∈ c6Store, usedEventFilter c6Store "C1" "L1" "email_open" none e' = true →
            e.created_at ≤ e'.created_at :=
  ⟨⟨by decide, Or.inl rfl⟩, by decide,
    (c6_process_event_consumes_oldest c6Store "C1" "L1" "email_open" none 9
      (by decide) (Or.inl rfl)).2.1 "c1" (by decide)⟩

end EmailFlow
